import Mathlib

/-!
Verification of the EsoCore server's device-facing core against its design
spec: telemetry intake with an idempotency ledger (src/server/iot/views.py,
telemetry_batch), device configuration fetch (get_config), firmware rollout
decisions (ota_check / ota_report), event acknowledge/resolve actions
(src/server/events/views.py), and the notification retry policy
(src/server/events/models.py plus the dispatcher described in the design
document, which has no implementation in the repository).

The embedding is shallow: Django model rows become Lean structures collected
in lists inside `ServerState`; each HTTP view becomes a pure function from a
request and a state to a response and a new state.  Datetimes are modelled as
`Nat` ticks, UUID primary keys as `Nat`, and JSON blobs that the core never
inspects as `String`.  The SHA-256 digest and the timestamp parser are taken
as explicit function parameters (`hashFn`, `parseDT`), so the theorems hold
for an arbitrary digest function and an arbitrary parser; the parser's result
type `ParseOutcome` keeps the three behaviors of
django.utils.dateparse.parse_datetime distinct — a parsed datetime, None on
input it cannot match, and ValueError on well-formatted but invalid input —
because the batch loop treats the last one as a rejected reading.  A concrete
executable model of parse_datetime (`djangoParseDatetime`) instantiates the
parser in counterexamples and witnesses.
-/

set_option autoImplicit false

namespace EsoCore

/-- Device row (src/server/devices/models.py, class Device).  Fields the
device-facing views read or write: primary key, model, firmware_version,
api_key, last_seen. -/
structure Device where
  id : Nat
  model : String
  firmware_version : String
  api_key : String
  last_seen : Option Nat
deriving Repr, DecidableEq

/-- Ledger row (src/server/telemetry/models.py, class TelemetryPacket).
unique_together = [device, upload_id] is the idempotency anchor. -/
structure TelemetryPacket where
  device_id : Nat
  upload_id : String
  checksum : String
  status : String
  record_count : Nat
  processed_at : Option Nat
deriving Repr, DecidableEq

/-- Data point row (src/server/telemetry/models.py, class TelemetryPoint).
metric is a non-null CharField and value a non-null FloatField, so a row
cannot be stored with either missing; the numeric value domain is modelled
by Int since no claim performs arithmetic on it. -/
structure TelemetryPoint where
  device_id : Nat
  timestamp : Nat
  metric : String
  value : Int
  unit : String
  meta : String
deriving Repr, DecidableEq

/-- Firmware bundle row (src/server/devices/models.py, class FirmwareBundle). -/
structure FirmwareBundle where
  version : String
  hash : String
  channel : String
  rollout_policy : String
  supported_models : List String
  release_notes : String
  created_at : Nat
deriving Repr, DecidableEq

/-- System event row (src/server/events/models.py, class SystemEvent).  The
metadata JSON written by ota_report carries the two keys ota_version and
error, modelled as the two final fields. -/
structure SystemEvent where
  device_id : Nat
  event_type : String
  severity : String
  description : String
  status : String
  resolved_at : Option Nat
  resolved_by : Option Nat
  ota_version : Option String
  error_note : String
deriving Repr, DecidableEq

/-- Configuration row (src/server/devices/models.py, class
DeviceConfiguration); the four JSON blobs are opaque to the core. -/
structure DeviceConfiguration where
  device_id : Nat
  sampling_rates : String
  thresholds : String
  ntp_servers : String
  endpoints : String
deriving Repr, DecidableEq

/-- The relational store as seen by the device-facing views. -/
structure ServerState where
  devices : List Device
  packets : List TelemetryPacket
  points : List TelemetryPoint
  firmwares : List FirmwareBundle
  events : List SystemEvent
  configs : List DeviceConfiguration
deriving Repr, DecidableEq

/-- Python truthiness of an optional header string: None and the empty
string are falsy, every other string is truthy. -/
def truthy : Option String → Bool
  | none => false
  | some s => s != ""

/-- Python `a or b` on two optional header strings. -/
def pyOr (a b : Option String) : Option String := if truthy a then a else b

/-- Device.objects.get(id=device_id, api_key=api_key): both columns are
non-null, so a missing header can match no row; otherwise the unique row
with that primary key and that api_key, if any. -/
def findDevice (devices : List Device) (did : Option Nat) (key : Option String) :
    Option Device :=
  match did, key with
  | some i, some k => devices.find? (fun d => d.id == i && d.api_key == k)
  | _, _ => none

/-- One element of the JSON batch body: `{timestamp, metric, value, unit?,
meta?}`.  The view's comment says it expects the timestamp as an ISO-8601
string, so the timestamp field is an optional string; metric/value/unit/meta
are optional per item.get. -/
structure ReadingItem where
  timestamp : Option String
  metric : Option String
  value : Option Int
  unit : Option String
  meta : Option String
deriving Repr, DecidableEq

/-- The request body of the batch endpoint: a JSON list of readings, or any
other JSON shape (rejected by the isinstance(batch_data, list) check). -/
inductive BatchBody where
  | jsonList (items : List ReadingItem)
  | nonList
deriving Repr, DecidableEq

/-- Headers and body of a telemetry_batch request.  auth_key / legacy_api_key
model HTTP_X_AUTH_KEY and HTTP_X_API_KEY; raw_body is request.body. -/
structure BatchRequest where
  device_id : Option Nat
  auth_key : Option String
  legacy_api_key : Option String
  idempotency_key : Option String
  content_sha256 : Option String
  body : BatchBody
  raw_body : String
deriving Repr, DecidableEq

/-- Response of the batch endpoint: either the `{accepted, duplicates,
rejected}` counts with an HTTP status, or an error payload with its status. -/
inductive BatchResponse where
  | counts (accepted duplicates rejected http : Nat)
  | err (msg : String) (http : Nat)
deriving Repr, DecidableEq

/-- HTTP status code of a batch response. -/
def BatchResponse.http : BatchResponse → Nat
  | .counts _ _ _ h => h
  | .err _ h => h

/-- The three observable outcomes of the view's timestamp parser,
django.utils.dateparse.parse_datetime, whose documented contract is:
return None when the input is not well formatted, raise ValueError when the
input is well formatted but not a valid datetime (e.g. month 13), and
return the parsed datetime otherwise.  The per-item try/except of
telemetry_batch turns the ValueError case into a rejected reading, so the
three outcomes must stay distinct in the embedding. -/
inductive ParseOutcome where
  | parsed (t : Nat)
  | badFormat
  | raisesValueError
deriving Repr, DecidableEq

/-- Longest leading digit run of a character list, and the rest. -/
def readDigitRun (cs : List Char) : List Char × List Char :=
  (cs.takeWhile Char.isDigit, cs.dropWhile Char.isDigit)

/-- Decimal value of a digit character list. -/
def natOfChars (cs : List Char) : Nat :=
  cs.foldl (fun acc c => acc * 10 + (c.toNat - 48)) 0

/-- Days in a month with Gregorian leap years, as datetime.datetime
validates the day field. -/
def daysInMonth (y mo : Nat) : Nat :=
  if mo = 2 then
    if (y % 4 = 0 ∧ y % 100 ≠ 0) ∨ y % 400 = 0 then 29 else 28
  else if mo = 4 ∨ mo = 6 ∨ mo = 9 ∨ mo = 11 then 30
  else 31

/-- datetime.datetime(**kw) on the regex-matched fields: ValueError outside
the documented ranges (MINYEAR 1, month 1-12, day within the month, hour at
most 23, minute and second at most 59, timezone offset strictly below 24
hours); otherwise the datetime, encoded injectively as a Nat tick (no claim
inspects the encoding). -/
def buildDatetime (y mo d h mi s : Nat) (tzMin : Option Nat) : ParseOutcome :=
  if 1 ≤ y ∧ 1 ≤ mo ∧ mo ≤ 12 ∧ 1 ≤ d ∧ d ≤ daysInMonth y mo ∧ h ≤ 23 ∧
      mi ≤ 59 ∧ s ≤ 59 ∧ tzMin.getD 0 ≤ 1439 then
    .parsed ((((((y * 13 + mo) * 32 + d) * 24 + h) * 60 + mi) * 60) + s)
  else
    .raisesValueError

/-- The optional fraction group of the parse_datetime regex: '.' or ','
followed by one to twelve digits; none when the tail can no longer complete
a match. -/
def skipFraction : List Char → Option (List Char)
  | [] => some []
  | c :: r1 =>
    if c = '.' ∨ c = ',' then
      let fr := readDigitRun r1
      if 1 ≤ fr.1.length ∧ fr.1.length ≤ 12 then some fr.2 else none
    else some (c :: r1)

/-- The optional trailing timezone group of the parse_datetime regex,
Z | [+-]HH[[:]MM], anchored at the end of the string; yields the offset
magnitude in minutes, or none when the tail cannot complete a match. -/
def readTz : List Char → Option (Option Nat)
  | [] => some none
  | ['Z'] => some (some 0)
  | c :: r1 =>
    if c = '+' ∨ c = '-' then
      let hr := readDigitRun r1
      if hr.1.length = 2 then
        match hr.2 with
        | [] => some (some (natOfChars hr.1 * 60))
        | ':' :: r3 =>
          let mr := readDigitRun r3
          if mr.1.length = 2 ∧ mr.2 = [] then
            some (some (natOfChars hr.1 * 60 + natOfChars mr.1))
          else none
        | _ => none
      else if hr.1.length = 4 ∧ hr.2 = [] then
        some (some (natOfChars (hr.1.take 2) * 60 + natOfChars (hr.1.drop 2)))
      else none
    else none

/-- django.utils.dateparse.parse_datetime modelled on the character list of
its input: the anchored ISO-8601 regex
YYYY-MM-DD[T ]HH:MM[:SS[.ffffff]][Z|[+-]HH[[:]MM]] with a 4-digit year and
1-2 digit month/day/hour/minute/second groups, followed by
datetime.datetime validation of the matched fields.  A string the regex
cannot match is badFormat (the view then substitutes ingestion time); a
matched but invalid datetime raises ValueError (the view's per-item except
then rejects the reading). -/
def djangoParseDatetimeChars (cs : List Char) : ParseOutcome :=
  let yr := readDigitRun cs
  if yr.1.length = 4 then
    match yr.2 with
    | '-' :: r2 =>
      let mor := readDigitRun r2
      if 1 ≤ mor.1.length ∧ mor.1.length ≤ 2 then
        match mor.2 with
        | '-' :: r4 =>
          let dr := readDigitRun r4
          if 1 ≤ dr.1.length ∧ dr.1.length ≤ 2 then
            match dr.2 with
            | sep :: r6 =>
              if sep = 'T' ∨ sep = ' ' then
                let hr := readDigitRun r6
                if 1 ≤ hr.1.length ∧ hr.1.length ≤ 2 then
                  match hr.2 with
                  | ':' :: r8 =>
                    let mir := readDigitRun r8
                    if 1 ≤ mir.1.length ∧ mir.1.length ≤ 2 then
                      match mir.2 with
                      | ':' :: r10 =>
                        let sr := readDigitRun r10
                        if 1 ≤ sr.1.length ∧ sr.1.length ≤ 2 then
                          match skipFraction sr.2 with
                          | some r12 =>
                            match readTz r12 with
                            | some tz =>
                              buildDatetime (natOfChars yr.1) (natOfChars mor.1)
                                (natOfChars dr.1) (natOfChars hr.1)
                                (natOfChars mir.1) (natOfChars sr.1) tz
                            | none => .badFormat
                          | none => .badFormat
                        else .badFormat
                      | rest =>
                        match readTz rest with
                        | some tz =>
                          buildDatetime (natOfChars yr.1) (natOfChars mor.1)
                            (natOfChars dr.1) (natOfChars hr.1)
                            (natOfChars mir.1) 0 tz
                        | none => .badFormat
                    else .badFormat
                  | _ => .badFormat
                else .badFormat
              else .badFormat
            | [] => .badFormat
          else .badFormat
        | _ => .badFormat
      else .badFormat
    | _ => .badFormat
  else .badFormat

/-- django.utils.dateparse.parse_datetime as used at views.py:108. -/
def djangoParseDatetime (s : String) : ParseOutcome := djangoParseDatetimeChars s.data

/-- TelemetryPoint.objects.create (views.py:113-120): the insert raises
exactly when the non-null metric or value column would be null. -/
def buildPoint (devId : Nat) (item : ReadingItem) (ts : Nat) : Option TelemetryPoint :=
  match item.metric, item.value with
  | some m, some v =>
      some { device_id := devId, timestamp := ts, metric := m, value := v,
             unit := item.unit.getD "", meta := item.meta.getD "" }
  | _, _ => none

/-- One loop iteration of telemetry_batch (views.py:103-123): a string
timestamp goes through parse_datetime; its ValueError on a well-formatted
but invalid datetime escapes to the per-item except and rejects the reading
before any insert is attempted; a missing timestamp, or one the parser
cannot match (it returns None), falls back to ingestion time; then the
insert, which fails exactly when metric or value is missing.  Returns the
stored row, or none when the reading is rejected. -/
def pointOfItem (parseDT : String → ParseOutcome) (now : Nat) (devId : Nat)
    (item : ReadingItem) : Option TelemetryPoint :=
  match item.timestamp with
  | some s =>
    match parseDT s with
    | .raisesValueError => none
    | .parsed t => buildPoint devId item t
    | .badFormat => buildPoint devId item now
  | none => buildPoint devId item now

/-- The per-item loop of telemetry_batch: accepted count, rejected count and
the created points, in batch order; a rejected item never aborts the rest. -/
def processItems (parseDT : String → ParseOutcome) (now : Nat) (devId : Nat) :
    List ReadingItem → Nat × Nat × List TelemetryPoint
  | [] => (0, 0, [])
  | item :: rest =>
    let r := processItems parseDT now devId rest
    match pointOfItem parseDT now devId item with
    | some pt => (r.1 + 1, r.2.1, pt :: r.2.2)
    | none => (r.1, r.2.1 + 1, r.2.2)

/-- telemetry_batch (src/server/iot/views.py lines 32-145): header checks,
device lookup, duplicate-ledger check, list-shape check, optional integrity
check, then the item loop, the ledger row finalised as processed with
record_count = accepted, and the device's last_seen stamped. -/
def telemetry_batch (hashFn : String → String) (parseDT : String → ParseOutcome)
    (now : Nat) (st : ServerState) (req : BatchRequest) :
    BatchResponse × ServerState :=
  let api_key := pyOr req.auth_key req.legacy_api_key
  if !(req.device_id.isSome && truthy req.idempotency_key) then
    (.err "Missing required headers" 400, st)
  else
    match findDevice st.devices req.device_id api_key with
    | none => (.err "Device not found or invalid API key" 401, st)
    | some device =>
      let idem := req.idempotency_key.getD ""
      if st.packets.any (fun p => p.device_id == device.id && p.upload_id == idem) then
        (.counts 0 1 0 409, st)
      else
        match req.body with
        | .nonList => (.err "Batch data must be a list" 400, st)
        | .jsonList items =>
          if truthy req.content_sha256 && hashFn req.raw_body != req.content_sha256.getD "" then
            (.err "Content-SHA256 mismatch" 400, st)
          else
            let r := processItems parseDT now device.id items
            let packet : TelemetryPacket :=
              { device_id := device.id, upload_id := idem,
                checksum := req.content_sha256.getD "",
                status := "processed", record_count := r.1,
                processed_at := some now }
            (.counts r.1 0 r.2.1 200,
             { st with
                 devices := st.devices.map (fun d =>
                   if d.id == device.id then { d with last_seen := some now } else d),
                 packets := st.packets ++ [packet],
                 points := st.points ++ r.2.2 })

/-- Response of the configuration endpoint (get_config). -/
inductive ConfigResponse where
  | ok (sampling_rates thresholds ntp_servers endpoints : String)
  | err (msg : String) (http : Nat)
deriving Repr, DecidableEq

/-- get_config (src/server/iot/views.py lines 148-178): device lookup, then
the device's configuration row or empty defaults; Device.DoesNotExist maps
to a 404. -/
def get_config (st : ServerState) (did : Option Nat) (auth_key legacy_key : Option String) :
    ConfigResponse :=
  match findDevice st.devices did (pyOr auth_key legacy_key) with
  | none => .err "Device not found" 404
  | some device =>
    match st.configs.find? (fun c => c.device_id == device.id) with
    | some config =>
        .ok config.sampling_rates config.thresholds config.ntp_servers config.endpoints
    | none => .ok "{}" "{}" "[]" "{}"

/-- Dot-splitting on the character list of a string; on the empty list the
result is one empty group, matching Python "".split('.') == ['']. -/
def splitCharsOnDot : List Char → List (List Char)
  | [] => [[]]
  | c :: cs =>
    let r := splitCharsOnDot cs
    if c = '.' then [] :: r
    else
      match r with
      | [] => [[c]]
      | g :: gs => (c :: g) :: gs

/-- Python version.split('.') as a structurally recursive function. -/
def splitOnDot (s : String) : List String := (splitCharsOnDot s.data).map String.mk

/-- First dot-separated component of a version string, as in Python
version.split('.')[0]. -/
def majorOf (v : String) : String := (splitOnDot v).headD ""

/-- The ota_check queryset filter: supported_models__contains=[device.model]
and channel__in=['stable', device.firmware_version.split('.')[0]]. -/
def matchesDevice (device : Device) (f : FirmwareBundle) : Bool :=
  f.supported_models.contains device.model &&
    (f.channel == "stable" || f.channel == majorOf device.firmware_version)

/-- order_by('-created_at').first(): a row of maximal created_at, earliest
listed row winning ties. -/
def latestBundle : List FirmwareBundle → Option FirmwareBundle
  | [] => none
  | f :: rest =>
    match latestBundle rest with
    | none => some f
    | some g => if g.created_at > f.created_at then some g else some f

/-- The firmware selection performed by ota_check. -/
def selectFirmware (st : ServerState) (device : Device) : Option FirmwareBundle :=
  latestBundle (st.firmwares.filter (matchesDevice device))

/-- Response of the OTA check endpoint. -/
inductive OtaCheckResponse where
  | available (version hash download_url release_notes : String)
  | notAvailable (current_version : String)
  | err (msg : String) (http : Nat)
deriving Repr, DecidableEq

/-- ota_check (src/server/iot/views.py lines 181-215): device lookup, newest
bundle matching the model/channel filter, reported available when its
version differs from the device's current firmware version. -/
def ota_check (st : ServerState) (did : Option Nat) (auth_key legacy_key : Option String) :
    OtaCheckResponse :=
  match findDevice st.devices did (pyOr auth_key legacy_key) with
  | none => .err "Device not found" 404
  | some device =>
    match selectFirmware st device with
    | some f =>
      if f.version != device.firmware_version then
        .available f.version f.hash ("/api/firmware/" ++ f.version ++ "/download/")
          f.release_notes
      else
        .notAvailable device.firmware_version
    | none => .notAvailable device.firmware_version

/-- Headers and body fields of an ota_report request; status and version use
request.data.get with no default, error with default ''. -/
structure OtaReportRequest where
  device_id : Option Nat
  auth_key : Option String
  legacy_api_key : Option String
  status_update : Option String
  version : Option String
  error_note : String
deriving Repr, DecidableEq

/-- Response of the OTA report endpoint. -/
inductive SimpleResponse where
  | ok (status_msg : String)
  | err (msg : String) (http : Nat)
deriving Repr, DecidableEq

/-- Python f-string rendering of an optional value (None prints as "None"). -/
def strOfOpt : Option String → String
  | some s => s
  | none => "None"

/-- ota_report (src/server/iot/views.py lines 218-260): device lookup, one
SystemEvent per report with severity high exactly for failed/rollback, then
the firmware_version update guarded by status == 'completed' and a truthy
version. -/
def ota_report (st : ServerState) (req : OtaReportRequest) :
    SimpleResponse × ServerState :=
  match findDevice st.devices req.device_id (pyOr req.auth_key req.legacy_api_key) with
  | none => (.err "Device not found" 404, st)
  | some device =>
    let severity :=
      if req.status_update == some "failed" || req.status_update == some "rollback" then
        "high"
      else
        "low"
    let ev : SystemEvent :=
      { device_id := device.id,
        event_type := "ota_" ++ strOfOpt req.status_update,
        severity := severity,
        description :=
          "OTA update " ++ strOfOpt req.status_update ++ ": " ++ strOfOpt req.version,
        status := "active", resolved_at := none, resolved_by := none,
        ota_version := req.version, error_note := req.error_note }
    let st1 := { st with events := st.events ++ [ev] }
    if req.status_update == some "completed" && truthy req.version then
      (.ok "reported",
       { st1 with
           devices := st1.devices.map (fun d =>
             if d.id == device.id then { d with firmware_version := req.version.getD "" }
             else d) })
    else
      (.ok "reported", st1)

/-- SystemEventViewSet.acknowledge (src/server/events/views.py lines 30-37):
sets status to acknowledged unconditionally and saves. -/
def acknowledge (e : SystemEvent) : SystemEvent := { e with status := "acknowledged" }

/-- SystemEventViewSet.resolve (src/server/events/views.py lines 39-48):
sets status to resolved, resolved_at to the client-supplied value (absent
when the client omits it) and resolved_by to the requesting user. -/
def resolve (user_id : Nat) (resolved_at_param : Option Nat) (e : SystemEvent) :
    SystemEvent :=
  { e with status := "resolved", resolved_at := resolved_at_param,
           resolved_by := some user_id }

/-- NotificationQueue row (src/server/events/models.py lines 93-120); the
fields the dispatch policy touches. -/
structure NQEntry where
  status : String
  retry_count : Nat
  max_retries : Nat
  next_retry_at : Option Nat
  sent_at : Option Nat
  error_note : String
deriving Repr, DecidableEq

/-- A freshly created queue entry, with the models.py defaults: status
pending, retry_count 0, max_retries 3. -/
def initialEntry : NQEntry :=
  { status := "pending", retry_count := 0, max_retries := 3,
    next_retry_at := none, sent_at := none, error_note := "" }

/-- Outcome of one delivery attempt, per the design document's taxonomy. -/
inductive DeliveryOutcome where
  | success
  | transientFailure
  | permanentFailure
deriving Repr, DecidableEq

/-- Modelled from the spec: the dispatcher polls rows in pending, or in
retry with next_retry_at <= now (section 4.4; the repository has no
dispatcher implementation, only the NotificationQueue model). -/
def eligibleAt (t : Nat) (e : NQEntry) : Bool :=
  e.status == "pending" ||
    (e.status == "retry" &&
      match e.next_retry_at with
      | some r => decide (r ≤ t)
      | none => false)

/-- Documented base interval of the exponential backoff, in seconds. -/
def backoffBase : Nat := 60

/-- Documented cap on the backoff interval, in seconds. -/
def backoffCap : Nat := 3600

/-- Modelled from the spec: exponential backoff, base interval doubling per
attempt, capped at a maximum interval (section 4.4). -/
def backoffDelay (attempt : Nat) : Nat := min (backoffBase * 2 ^ attempt) backoffCap

/-- Modelled from the spec: one dispatcher attempt on one queue entry at
time t (section 4.4; the repository has no dispatcher implementation).
Success goes to sent; a permanent failure goes to failed immediately; a
transient failure increments retry_count, scheduling a backoff-with-jitter
retry while retry_count < max_retries and otherwise terminating at failed.
Rows that are not eligible (sent, failed, or retry not yet due) are left
untouched. -/
def dispatchStep (t jitter : Nat) (o : DeliveryOutcome) (e : NQEntry) : NQEntry :=
  if eligibleAt t e then
    match o with
    | .success => { e with status := "sent", sent_at := some t }
    | .permanentFailure =>
        { e with status := "failed", error_note := "permanent delivery failure" }
    | .transientFailure =>
        let rc := e.retry_count + 1
        if rc < e.max_retries then
          { e with status := "retry", retry_count := rc,
                   next_retry_at := some (t + backoffDelay rc + jitter) }
        else
          { e with status := "failed", retry_count := rc,
                   error_note := "retries exhausted" }
  else e

/-- A sequence of dispatcher attempts: each step carries its wall-clock
time, its jitter draw and its delivery outcome. -/
def runSteps (e : NQEntry) : List (Nat × Nat × DeliveryOutcome) → NQEntry
  | [] => e
  | s :: rest => runSteps (dispatchStep s.1 s.2.1 s.2.2 e) rest

/-- The earliest time at which an entry is polled again. -/
def eligTime (e : NQEntry) : Nat := e.next_retry_at.getD 0

/-- k dispatcher attempts that all fail transiently, each made exactly when
the entry becomes due. -/
def drainTransient (e : NQEntry) : Nat → NQEntry
  | 0 => e
  | k + 1 => drainTransient (dispatchStep (eligTime e) 0 .transientFailure e) k

/-- Modelled from the spec: dotted-numeric version comparison giving the
invariant's phrase "its version strictly exceeds the device's current
version" a meaning; the source never compares versions numerically. -/
def versionParts (v : String) : List Nat :=
  (splitOnDot v).map (fun s => natOfChars s.data)

/-- Lexicographic order on version component lists. -/
def partsLt : List Nat → List Nat → Bool
  | [], [] => false
  | [], _ :: _ => true
  | _ :: _, [] => false
  | a :: as, b :: bs => if a < b then true else if b < a then false else partsLt as bs

/-- Modelled from the spec: `versionExceeds a b` holds when version a
strictly exceeds version b. -/
def versionExceeds (a b : String) : Bool := partsLt (versionParts b) (versionParts a)

/-- Modelled from the spec: selection among bundles "whose channel matches
the device's rollout channel" for a device whose rollout channel is the
single value c — the reading under which each device carries one
explicitly configured channel (sections 4.5 and 9). -/
def selectByChannel (c : String) (model : String) (bundles : List FirmwareBundle) :
    Option FirmwareBundle :=
  latestBundle (bundles.filter (fun f => f.supported_models.contains model && f.channel == c))

/-- A reading missing its metric or its value — the quantity k of the
original claim C2; the loop additionally rejects on a parse_datetime
ValueError, see rejectedItem below. -/
def missingMV (i : ReadingItem) : Bool := i.metric.isNone || i.value.isNone

/-- A reading the loop of telemetry_batch actually rejects: parse_datetime
raising ValueError on its timestamp string (caught by the per-item except at
views.py:122), or a missing metric or value (the insert raises). -/
def rejectedItem (parseDT : String → ParseOutcome) (i : ReadingItem) : Bool :=
  (match i.timestamp with
   | some s => parseDT s == .raisesValueError
   | none => false) || missingMV i

theorem pointOfItem_isSome_iff (parseDT : String → ParseOutcome) (now devId : Nat)
    (item : ReadingItem) :
    (pointOfItem parseDT now devId item).isSome = !rejectedItem parseDT item := by
  unfold pointOfItem rejectedItem missingMV buildPoint
  cases hts : item.timestamp with
  | none => cases item.metric <;> cases item.value <;> simp
  | some s =>
    cases hp : parseDT s <;> cases item.metric <;> cases item.value <;> simp [hp]

theorem processItems_counts (parseDT : String → ParseOutcome) (now devId : Nat)
    (items : List ReadingItem) :
    (processItems parseDT now devId items).1
        = (items.filter fun i => !rejectedItem parseDT i).length ∧
      (processItems parseDT now devId items).2.1
        = (items.filter (rejectedItem parseDT)).length ∧
      (processItems parseDT now devId items).2.2.length
        = (items.filter fun i => !rejectedItem parseDT i).length := by
  induction items with
  | nil => simp [processItems]
  | cons item rest ih =>
    have hpt := pointOfItem_isSome_iff parseDT now devId item
    unfold processItems
    cases hcase : pointOfItem parseDT now devId item with
    | some pt =>
      have hm : rejectedItem parseDT item = false := by
        rw [hcase] at hpt
        cases hmv : rejectedItem parseDT item <;> simp [hmv] at hpt ⊢
      simp [List.filter, hm, ih.1, ih.2.1, ih.2.2]
    | none =>
      have hm : rejectedItem parseDT item = true := by
        rw [hcase] at hpt
        cases hmv : rejectedItem parseDT item <;> simp [hmv] at hpt ⊢
      simp [List.filter, hm, ih.1, ih.2.1, ih.2.2]

theorem length_filter_not_eq_sub (p : ReadingItem → Bool) (l : List ReadingItem) :
    (l.filter fun i => !p i).length = l.length - (l.filter p).length := by
  induction l with
  | nil => simp
  | cons a l ih =>
    cases h : p a <;>
      simp [List.filter, h, ih, Nat.succ_sub (List.length_filter_le _ _)]

theorem latestBundle_spec (l : List FirmwareBundle) (f : FirmwareBundle)
    (h : latestBundle l = some f) :
    f ∈ l ∧ ∀ g ∈ l, g.created_at ≤ f.created_at := by
  induction l generalizing f with
  | nil => simp [latestBundle] at h
  | cons a l ih =>
    unfold latestBundle at h
    cases hl : latestBundle l with
    | none =>
      rw [hl] at h
      cases h
      have hle : l = [] := by
        cases l with
        | nil => rfl
        | cons b l' =>
          exfalso
          cases h' : latestBundle l' with
          | none => simp [latestBundle, h'] at hl
          | some g => simp [latestBundle, h'] at hl; split at hl <;> simp_all
      subst hle
      refine ⟨List.mem_cons_self _ _, ?_⟩
      intro g hg
      simp only [List.mem_singleton] at hg
      exact hg ▸ Nat.le_refl _
    | some g =>
      rw [hl] at h
      rcases ih g hl with ⟨hmem, hmax⟩
      by_cases hgt : g.created_at > a.created_at
      · simp [hgt] at h
        subst h
        refine ⟨List.mem_cons_of_mem _ hmem, ?_⟩
        intro x hx
        rcases List.mem_cons.mp hx with hx | hx
        · exact hx ▸ Nat.le_of_lt hgt
        · exact hmax x hx
      · simp [hgt] at h
        subst h
        refine ⟨List.mem_cons_self _ _, ?_⟩
        intro x hx
        rcases List.mem_cons.mp hx with hx | hx
        · exact hx ▸ Nat.le_refl _
        · exact Nat.le_trans (hmax x hx) (Nat.le_of_not_lt hgt)

/-- Fixture: a provisioned device. -/
def exDevice : Device :=
  { id := 1, model := "X1", firmware_version := "1.0.0", api_key := "key-1",
    last_seen := none }

/-- Fixture: an existing ledger row for (device 1, upload id "abc"). -/
def exPacket : TelemetryPacket :=
  { device_id := 1, upload_id := "abc", checksum := "", status := "processed",
    record_count := 1, processed_at := some 5 }

/-- Fixture: a store in which upload "abc" of device 1 was already ingested. -/
def exStateDup : ServerState :=
  { devices := [exDevice], packets := [exPacket], points := [], firmwares := [],
    events := [], configs := [] }

/-- Fixture: a well-formed resubmission of upload "abc" by device 1. -/
def exReqDup : BatchRequest :=
  { device_id := some 1, auth_key := some "key-1", legacy_api_key := none,
    idempotency_key := some "abc", content_sha256 := none,
    body := .jsonList [], raw_body := "" }

/-- C1: when a TelemetryPacket ledger row already exists for the submitting
device and the request's upload id, telemetry_batch answers
{accepted 0, duplicates 1, rejected 0} with the 409 conflict status and
returns the store unchanged, so no TelemetryPacket row and no
TelemetryPoint row is created. -/
theorem telemetry_batch_duplicate_idempotent
    (hashFn : String → String) (parseDT : String → ParseOutcome) (now : Nat)
    (st : ServerState) (req : BatchRequest) (device : Device) (u : String)
    (hhdr : (req.device_id.isSome && truthy req.idempotency_key) = true)
    (hauth : findDevice st.devices req.device_id (pyOr req.auth_key req.legacy_api_key)
      = some device)
    (hu : req.idempotency_key = some u)
    (hdup : (st.packets.any fun p => p.device_id == device.id && p.upload_id == u) = true) :
    telemetry_batch hashFn parseDT now st req = (.counts 0 1 0 409, st) := by
  rw [Bool.and_eq_true] at hhdr
  obtain ⟨h1, h2⟩ := hhdr
  rw [hu] at h2
  rw [Option.isSome_iff_ne_none] at h1
  unfold telemetry_batch
  simp [hauth, hu, hdup, h1, h2]

theorem telemetry_batch_duplicate_idempotent_witness :
    ((exReqDup.device_id.isSome && truthy exReqDup.idempotency_key) = true) ∧
    (findDevice exStateDup.devices exReqDup.device_id
        (pyOr exReqDup.auth_key exReqDup.legacy_api_key) = some exDevice) ∧
    ((exStateDup.packets.any fun p => p.device_id == exDevice.id && p.upload_id == "abc")
        = true) ∧
    telemetry_batch (fun _ => "") (fun _ => ParseOutcome.badFormat) 7 exStateDup exReqDup
      = (.counts 0 1 0 409, exStateDup) :=
  ⟨rfl, rfl, rfl,
   telemetry_batch_duplicate_idempotent (fun _ => "") (fun _ => ParseOutcome.badFormat) 7 exStateDup
     exReqDup exDevice "abc" rfl rfl rfl rfl⟩

/-- Fixture: a resubmission of upload "abc" whose body is not a JSON list
and whose declared integrity hash cannot match anything. -/
def exReqDupBad : BatchRequest :=
  { device_id := some 1, auth_key := some "key-1", legacy_api_key := none,
    idempotency_key := some "abc", content_sha256 := some "not-a-real-digest",
    body := .nonList, raw_body := "{}" }

/-- C10: the duplicate-ledger check runs before the list-shape check and the
integrity check, so a resubmission of an already-ingested (device, upload
id) is answered {accepted 0, duplicates 1, rejected 0} with the 409 status
and an unchanged store even when its body is not a list or its declared
integrity hash does not match the payload. -/
theorem telemetry_batch_duplicate_precedes_validation
    (hashFn : String → String) (parseDT : String → ParseOutcome) (now : Nat)
    (st : ServerState) (req : BatchRequest) (device : Device) (u : String)
    (hhdr : (req.device_id.isSome && truthy req.idempotency_key) = true)
    (hauth : findDevice st.devices req.device_id (pyOr req.auth_key req.legacy_api_key)
      = some device)
    (hu : req.idempotency_key = some u)
    (hdup : (st.packets.any fun p => p.device_id == device.id && p.upload_id == u) = true)
    (hbad : req.body = .nonList ∨
      (truthy req.content_sha256 = true ∧ hashFn req.raw_body ≠ req.content_sha256.getD "")) :
    telemetry_batch hashFn parseDT now st req = (.counts 0 1 0 409, st) := by
  rw [Bool.and_eq_true] at hhdr
  obtain ⟨h1, h2⟩ := hhdr
  rw [hu] at h2
  rw [Option.isSome_iff_ne_none] at h1
  unfold telemetry_batch
  simp [hauth, hu, hdup, h1, h2]

theorem telemetry_batch_duplicate_precedes_validation_witness :
    (exReqDupBad.body = .nonList ∨
      (truthy exReqDupBad.content_sha256 = true ∧
        (fun _ : String => "digest") exReqDupBad.raw_body ≠ exReqDupBad.content_sha256.getD "")) ∧
    telemetry_batch (fun _ => "digest") (fun _ => ParseOutcome.badFormat) 7 exStateDup exReqDupBad
      = (.counts 0 1 0 409, exStateDup) :=
  ⟨Or.inl rfl,
   telemetry_batch_duplicate_precedes_validation (fun _ => "digest") (fun _ => ParseOutcome.badFormat) 7
     exStateDup exReqDupBad exDevice "abc" rfl rfl rfl rfl (Or.inl rfl)⟩

/-- C3: a non-duplicate batch whose declared integrity hash differs from the
hash recomputed over the raw request payload is answered with a 400
validation failure and the store is returned unchanged: no TelemetryPacket
ledger row and no TelemetryPoint rows are written. -/
theorem telemetry_batch_integrity_mismatch_writes_nothing
    (hashFn : String → String) (parseDT : String → ParseOutcome) (now : Nat)
    (st : ServerState) (req : BatchRequest) (device : Device) (u : String)
    (hhdr : (req.device_id.isSome && truthy req.idempotency_key) = true)
    (hauth : findDevice st.devices req.device_id (pyOr req.auth_key req.legacy_api_key)
      = some device)
    (hu : req.idempotency_key = some u)
    (hnodup : (st.packets.any fun p => p.device_id == device.id && p.upload_id == u) = false)
    (hsha : truthy req.content_sha256 = true)
    (hmis : hashFn req.raw_body ≠ req.content_sha256.getD "") :
    ∃ m, telemetry_batch hashFn parseDT now st req = (.err m 400, st) := by
  rw [Bool.and_eq_true] at hhdr
  obtain ⟨h1, h2⟩ := hhdr
  rw [hu] at h2
  rw [Option.isSome_iff_ne_none] at h1
  unfold telemetry_batch
  cases hbody : req.body with
  | nonList =>
    exact ⟨"Batch data must be a list", by simp [hauth, hu, hnodup, hbody, h1, h2]⟩
  | jsonList items =>
    refine ⟨"Content-SHA256 mismatch", ?_⟩
    have hbne : (hashFn req.raw_body != req.content_sha256.getD "") = true :=
      bne_iff_ne.mpr hmis
    simp [hauth, hu, hnodup, hbody, hsha, hbne, h1, h2]

/-- Fixture: a store holding device 1 and nothing else. -/
def exStateFresh : ServerState :=
  { devices := [exDevice], packets := [], points := [], firmwares := [],
    events := [], configs := [] }

/-- Fixture: a first-time upload whose declared digest will not match. -/
def exReqBadSha : BatchRequest :=
  { device_id := some 1, auth_key := some "key-1", legacy_api_key := none,
    idempotency_key := some "xyz", content_sha256 := some "deadbeef",
    body := .jsonList [], raw_body := "[]" }

theorem telemetry_batch_integrity_mismatch_writes_nothing_witness :
    (truthy exReqBadSha.content_sha256 = true) ∧
    ((fun _ : String => "00ff") exReqBadSha.raw_body ≠ exReqBadSha.content_sha256.getD "") ∧
    ∃ m, telemetry_batch (fun _ => "00ff") (fun _ => ParseOutcome.badFormat) 7 exStateFresh exReqBadSha
      = (.err m 400, exStateFresh) :=
  ⟨rfl, by decide,
   telemetry_batch_integrity_mismatch_writes_nothing (fun _ => "00ff") (fun _ => ParseOutcome.badFormat) 7
     exStateFresh exReqBadSha exDevice "xyz" rfl rfl rfl rfl rfl (by decide)⟩

theorem pointOfItem_of_not_rejected (parseDT : String → ParseOutcome) (now devId : Nat)
    (item : ReadingItem) (h : rejectedItem parseDT item = false) :
    ∃ pt, pointOfItem parseDT now devId item = some pt := by
  unfold rejectedItem missingMV at h
  unfold pointOfItem buildPoint
  cases hts : item.timestamp with
  | none =>
    rw [hts] at h
    cases hm : item.metric <;> cases hv : item.value <;> simp [hm, hv] at h ⊢
  | some s =>
    rw [hts] at h
    simp only [Bool.or_eq_false_iff] at h
    cases hp : parseDT s with
    | raisesValueError =>
      rw [hp] at h
      simp at h
    | parsed t =>
      cases hm : item.metric <;> cases hv : item.value <;> simp [hm, hv, hp] at h ⊢
    | badFormat =>
      cases hm : item.metric <;> cases hv : item.value <;> simp [hm, hv, hp] at h ⊢

theorem pointOfItem_fallback_timestamp (parseDT : String → ParseOutcome) (now devId : Nat)
    (item : ReadingItem)
    (hts : item.timestamp = none ∨
      ∃ s, item.timestamp = some s ∧ parseDT s = .badFormat)
    (h : missingMV item = false) :
    ∃ pt, pointOfItem parseDT now devId item = some pt ∧ pt.timestamp = now := by
  unfold missingMV at h
  unfold pointOfItem buildPoint
  rcases hts with hts | ⟨s, hts, hps⟩
  · rw [hts]
    cases hm : item.metric <;> cases hv : item.value <;> simp [hm, hv] at h ⊢
  · rw [hts]
    cases hm : item.metric <;> cases hv : item.value <;> simp [hm, hv, hps] at h ⊢

/-- Fixture: one reading with metric and value present whose timestamp is
well formatted but not a valid datetime (month 13), on which
django.utils.dateparse.parse_datetime raises ValueError. -/
def exItemBadMonth : ReadingItem :=
  { timestamp := some "2024-13-01T00:00:00", metric := some "temp", value := some 21,
    unit := none, meta := none }

/-- Fixture: a first-time submission of the single bad-month reading. -/
def exReqBadMonth : BatchRequest :=
  { device_id := some 1, auth_key := some "key-1", legacy_api_key := none,
    idempotency_key := some "bm1", content_sha256 := none,
    body := .jsonList [exItemBadMonth], raw_body := "[...]" }

/-- C2 counterexample: parse_datetime raises ValueError on the
well-formatted but invalid datetime "2024-13-01T00:00:00"; the per-item
except at views.py:122 then counts the reading as rejected although its
metric and value are both present.  The batch below has N = 1 readings of
which k = 0 are missing metric or value, yet telemetry_batch answers
accepted 0, rejected 1 — so accepted differs from N - k and a reading is
rejected solely because of its timestamp. -/
theorem telemetry_batch_timestamp_rejection_counterexample :
    djangoParseDatetime "2024-13-01T00:00:00" = .raisesValueError ∧
    missingMV exItemBadMonth = false ∧
    ([exItemBadMonth].filter missingMV).length = 0 ∧
    (telemetry_batch (fun _ => "") djangoParseDatetime 9 exStateFresh exReqBadMonth).1
      = .counts 0 0 1 200 := by
  refine ⟨by decide, rfl, rfl, by decide⟩

/-- C2 (amended): a non-duplicate batch of N readings is answered
{accepted N-k, duplicates 0, rejected k} with status 200, where k counts
the readings the loop rejects: those missing their metric or their value,
together with those whose timestamp string is a well-formatted but invalid
datetime on which parse_datetime raises ValueError (caught by the per-item
except).  Exactly one ledger row is appended and its final record_count
equals the accepted count N-k; exactly N-k points are appended, so
processing continues past every rejected reading; a reading whose
timestamp is merely missing or ill-formatted (the parser returns None) is
never rejected on that account — ingestion time is substituted instead. -/
theorem telemetry_batch_partial_acceptance
    (hashFn : String → String) (parseDT : String → ParseOutcome) (now : Nat)
    (st : ServerState) (req : BatchRequest) (device : Device) (u : String)
    (items : List ReadingItem)
    (hhdr : (req.device_id.isSome && truthy req.idempotency_key) = true)
    (hauth : findDevice st.devices req.device_id (pyOr req.auth_key req.legacy_api_key)
      = some device)
    (hu : req.idempotency_key = some u)
    (hnodup : (st.packets.any fun p => p.device_id == device.id && p.upload_id == u) = false)
    (hbody : req.body = .jsonList items)
    (hsha : (truthy req.content_sha256 &&
      hashFn req.raw_body != req.content_sha256.getD "") = false) :
    (telemetry_batch hashFn parseDT now st req).1
        = .counts (items.length - (items.filter (rejectedItem parseDT)).length) 0
            ((items.filter (rejectedItem parseDT)).length) 200 ∧
    (∃ p : TelemetryPacket,
        (telemetry_batch hashFn parseDT now st req).2.packets = st.packets ++ [p] ∧
        p.record_count = items.length - (items.filter (rejectedItem parseDT)).length ∧
        p.status = "processed" ∧ p.device_id = device.id ∧ p.upload_id = u) ∧
    (telemetry_batch hashFn parseDT now st req).2.points.length
        = st.points.length +
            (items.length - (items.filter (rejectedItem parseDT)).length) ∧
    (∀ item ∈ items, rejectedItem parseDT item = false →
        ∃ pt, pointOfItem parseDT now device.id item = some pt) ∧
    (∀ item ∈ items,
        (item.timestamp = none ∨
          ∃ s, item.timestamp = some s ∧ parseDT s = .badFormat) →
        missingMV item = false →
        ∃ pt, pointOfItem parseDT now device.id item = some pt ∧ pt.timestamp = now) := by
  rw [Bool.and_eq_true] at hhdr
  obtain ⟨h1, h2⟩ := hhdr
  rw [hu] at h2
  rw [Option.isSome_iff_ne_none] at h1
  have hc := processItems_counts parseDT now device.id items
  have hsub := length_filter_not_eq_sub (rejectedItem parseDT) items
  have hmain : telemetry_batch hashFn parseDT now st req =
      (.counts (processItems parseDT now device.id items).1 0
          (processItems parseDT now device.id items).2.1 200,
       { st with
           devices := st.devices.map (fun d =>
             if d.id == device.id then { d with last_seen := some now } else d),
           packets := st.packets ++
             [⟨device.id, u, req.content_sha256.getD "", "processed",
               (processItems parseDT now device.id items).1, some now⟩],
           points := st.points ++ (processItems parseDT now device.id items).2.2 }) := by
    unfold telemetry_batch
    simp [hauth, hu, hnodup, hbody, hsha, h1, h2]
  refine ⟨?_, ?_, ?_, ?_, ?_⟩
  · rw [hmain]
    rw [hc.1, hc.2.1, hsub]
  · refine ⟨⟨device.id, u, req.content_sha256.getD "", "processed",
        (processItems parseDT now device.id items).1, some now⟩, ?_, ?_, rfl, rfl, rfl⟩
    · rw [hmain]
    · show (processItems parseDT now device.id items).1 = _
      rw [hc.1, hsub]
  · rw [hmain]
    simp only [List.length_append, hc.2.2, hsub]
  · intro item _ hmv
    exact pointOfItem_of_not_rejected parseDT now device.id item hmv
  · intro item _ hts hmv
    exact pointOfItem_fallback_timestamp parseDT now device.id item hts hmv

/-- Fixture: the two readings of the spec's end-to-end scenario, the second
missing its value. -/
def exItems : List ReadingItem :=
  [{ timestamp := some "2024-01-01T00:00:00Z", metric := some "temp", value := some 21,
     unit := none, meta := none },
   { timestamp := none, metric := some "temp", value := none, unit := none, meta := none }]

/-- Fixture: a first-time submission of the scenario batch under key "abc". -/
def exReqBatch : BatchRequest :=
  { device_id := some 1, auth_key := some "key-1", legacy_api_key := none,
    idempotency_key := some "abc", content_sha256 := none,
    body := .jsonList exItems, raw_body := "[...]" }

theorem telemetry_batch_partial_acceptance_witness :
    ((exStateFresh.packets.any fun p => p.device_id == exDevice.id && p.upload_id == "abc")
        = false) ∧
    ([exItems.headD ⟨none, none, none, none, none⟩].filter
        (rejectedItem djangoParseDatetime)).length = 0 ∧
    (telemetry_batch (fun _ => "") djangoParseDatetime 9 exStateFresh exReqBatch).1
        = .counts 1 0 1 200 := by
  refine ⟨rfl, by decide, ?_⟩
  exact (telemetry_batch_partial_acceptance (fun _ => "") djangoParseDatetime 9
    exStateFresh exReqBatch exDevice "abc" exItems rfl rfl rfl rfl rfl rfl).1

/-- Fixture: a device already on firmware 2.0.0. -/
def exDeviceNewer : Device :=
  { id := 4, model := "X1", firmware_version := "2.0.0", api_key := "key-4",
    last_seen := none }

/-- Fixture: an older stable bundle, version 1.0.0. -/
def exBundleOld : FirmwareBundle :=
  { version := "1.0.0", hash := "h-old", channel := "stable", rollout_policy := "staged",
    supported_models := ["X1"], release_notes := "", created_at := 5 }

/-- Fixture: the only bundle on offer is older than the device's firmware. -/
def exStateDowngrade : ServerState :=
  { devices := [exDeviceNewer], packets := [], points := [], firmwares := [exBundleOld],
    events := [], configs := [] }

/-- C4 counterexample: a device on firmware 2.0.0 whose only matching bundle
is version 1.0.0 is told available=true, although 1.0.0 does not strictly
exceed 2.0.0 — ota_check tests version difference, not version order. -/
theorem ota_check_downgrade_counterexample :
    ota_check exStateDowngrade (some 4) (some "key-4") none
      = .available "1.0.0" "h-old" "/api/firmware/1.0.0/download/" "" ∧
    versionExceeds "1.0.0" "2.0.0" = false := ⟨rfl, rfl⟩

/-- C4 (amended): ota_check reports a bundle available only if the bundle's
supported-models set contains the device's model and the bundle's version
differs from (rather than strictly exceeds) the device's current firmware
version. -/
theorem ota_check_available_requires_model_and_differing_version
    (st : ServerState) (did : Option Nat) (ak lg : Option String) (device : Device)
    (v h u n : String)
    (hauth : findDevice st.devices did (pyOr ak lg) = some device)
    (havail : ota_check st did ak lg = .available v h u n) :
    ∃ f ∈ st.firmwares, f.version = v ∧
      f.supported_models.contains device.model = true ∧
      v ≠ device.firmware_version := by
  simp only [ota_check, hauth] at havail
  cases hsel : selectFirmware st device with
  | none => rw [hsel] at havail; simp at havail
  | some f =>
    rw [hsel] at havail
    split at havail
    · rename_i f2 hne
      injection hne with hff
      subst hff
      split at havail
      · rename_i hver
        injection havail with e1 e2 e3 e4
        have hmem := latestBundle_spec _ f hsel
        have hf := List.mem_filter.mp hmem.1
        have hmatch := hf.2
        unfold matchesDevice at hmatch
        rw [Bool.and_eq_true] at hmatch
        refine ⟨f, hf.1, e1, hmatch.1, ?_⟩
        rw [← e1]
        exact bne_iff_ne.mp hver
      · simp at havail
    · rename_i hne
      simp at hne

/-- Fixture: a device on firmware 1.0.0. -/
def exDeviceOld : Device :=
  { id := 2, model := "X1", firmware_version := "1.0.0", api_key := "key-2",
    last_seen := none }

/-- Fixture: the newest stable bundle, version 1.2.0. -/
def exBundleNew : FirmwareBundle :=
  { version := "1.2.0", hash := "h-new", channel := "stable", rollout_policy := "staged",
    supported_models := ["X1"], release_notes := "notes", created_at := 10 }

/-- Fixture: a store offering bundle 1.2.0 to device 2 at firmware 1.0.0. -/
def exStateUpgrade : ServerState :=
  { devices := [exDeviceOld], packets := [], points := [], firmwares := [exBundleNew],
    events := [], configs := [] }

theorem ota_check_available_requires_model_witness :
    (findDevice exStateUpgrade.devices (some 2) (pyOr (some "key-2") none)
        = some exDeviceOld) ∧
    (ota_check exStateUpgrade (some 2) (some "key-2") none
        = .available "1.2.0" "h-new" "/api/firmware/1.2.0/download/" "notes") ∧
    ∃ f ∈ exStateUpgrade.firmwares, f.version = "1.2.0" ∧
      f.supported_models.contains exDeviceOld.model = true ∧
      "1.2.0" ≠ exDeviceOld.firmware_version :=
  ⟨rfl, rfl,
   ota_check_available_requires_model_and_differing_version exStateUpgrade (some 2)
     (some "key-2") none exDeviceOld "1.2.0" "h-new" "/api/firmware/1.2.0/download/"
     "notes" rfl rfl⟩

/-- Fixture: a device whose firmware version string starts with "beta". -/
def exDeviceBetaFw : Device :=
  { id := 5, model := "X1", firmware_version := "beta.1", api_key := "key-5",
    last_seen := none }

/-- Fixture: a stable-channel bundle supporting model X1. -/
def exBundleStableNew : FirmwareBundle :=
  { version := "9.0.0", hash := "hs", channel := "stable", rollout_policy := "staged",
    supported_models := ["X1"], release_notes := "", created_at := 3 }

/-- Fixture: a beta-channel bundle supporting model X1. -/
def exBundleBeta : FirmwareBundle :=
  { version := "8.0.0", hash := "hb", channel := "beta", rollout_policy := "staged",
    supported_models := ["X1"], release_notes := "", created_at := 3 }

/-- Fixture: the store offers only the stable bundle. -/
def exStateChanA : ServerState :=
  { devices := [exDeviceBetaFw], packets := [], points := [],
    firmwares := [exBundleStableNew], events := [], configs := [] }

/-- Fixture: the store offers only the beta bundle. -/
def exStateChanB : ServerState :=
  { devices := [exDeviceBetaFw], packets := [], points := [],
    firmwares := [exBundleBeta], events := [], configs := [] }

/-- C5 counterexample: no single per-device rollout channel reproduces the
code's selection.  For the same device, the code selects a stable-channel
bundle from one bundle set and a beta-channel bundle from another, while
selection by one fixed device channel c (the spec's reading) would have to
match both, which is impossible — the code matches channel against the
two-element set {stable, first component of the firmware version}, not
against a device rollout-channel attribute (no such field exists on
Device). -/
theorem ota_rollout_channel_counterexample :
    ¬ ∃ c : String,
      selectByChannel c exDeviceBetaFw.model exStateChanA.firmwares
          = selectFirmware exStateChanA exDeviceBetaFw ∧
      selectByChannel c exDeviceBetaFw.model exStateChanB.firmwares
          = selectFirmware exStateChanB exDeviceBetaFw := by
  rintro ⟨c, h1, h2⟩
  have ha : selectFirmware exStateChanA exDeviceBetaFw = some exBundleStableNew := rfl
  have hb : selectFirmware exStateChanB exDeviceBetaFw = some exBundleBeta := rfl
  rw [ha] at h1
  rw [hb] at h2
  by_cases hc : c = "stable"
  · subst hc
    simp [selectByChannel, latestBundle, exStateChanB, exBundleBeta, exDeviceBetaFw,
      List.filter] at h2
  · have hne : ((("stable" : String)) == c) = false := beq_eq_false_iff_ne.mpr (Ne.symm hc)
    simp [selectByChannel, latestBundle, exStateChanA, exBundleStableNew, exDeviceBetaFw,
      List.filter, hne] at h1

/-- C5 (amended): ota_check selects, among bundles whose supported-models
set contains the device's model and whose channel is either "stable" or the
first dot-separated component of the device's firmware version, one of
maximal creation time, and reports it available when its version differs
from the device's current one; in particular the device at 1.0.0 with the
newest such bundle at 1.2.0 gets available=true with that bundle's version,
hash, download reference and release notes, and a device already at 1.2.0
gets available=false with its current_version. -/
theorem ota_check_selects_newest_matching
    (st : ServerState) (did : Option Nat) (ak lg : Option String) (device : Device)
    (v h u n : String)
    (hauth : findDevice st.devices did (pyOr ak lg) = some device)
    (havail : ota_check st did ak lg = .available v h u n) :
    (∃ f ∈ st.firmwares,
        (f.supported_models.contains device.model &&
          (f.channel == "stable" || f.channel == majorOf device.firmware_version)) = true ∧
        f.version = v ∧ f.hash = h ∧
        u = "/api/firmware/" ++ f.version ++ "/download/" ∧ f.release_notes = n ∧
        v ≠ device.firmware_version ∧
        ∀ g ∈ st.firmwares, matchesDevice device g = true → g.created_at ≤ f.created_at) ∧
    ota_check exStateUpgrade (some 2) (some "key-2") none
        = .available "1.2.0" "h-new" "/api/firmware/1.2.0/download/" "notes" ∧
    ota_check { exStateUpgrade with
        devices := [{ exDeviceOld with firmware_version := "1.2.0" }] }
        (some 2) (some "key-2") none
      = .notAvailable "1.2.0" := by
  refine ⟨?_, rfl, rfl⟩
  simp only [ota_check, hauth] at havail
  cases hsel : selectFirmware st device with
  | none => rw [hsel] at havail; simp at havail
  | some f =>
    rw [hsel] at havail
    split at havail
    · rename_i f2 hne
      injection hne with hff
      subst hff
      split at havail
      · rename_i hver
        injection havail with e1 e2 e3 e4
        have hmem := latestBundle_spec _ f hsel
        have hf := List.mem_filter.mp hmem.1
        refine ⟨f, hf.1, hf.2, e1, e2, e3.symm, e4, ?_, ?_⟩
        · rw [← e1]; exact bne_iff_ne.mp hver
        · intro g hg hgm
          exact hmem.2 g (List.mem_filter.mpr ⟨hg, hgm⟩)
      · simp at havail
    · rename_i hne
      simp at hne

theorem ota_check_selects_newest_matching_witness :
    (findDevice exStateUpgrade.devices (some 2) (pyOr (some "key-2") none)
        = some exDeviceOld) ∧
    ∃ f ∈ exStateUpgrade.firmwares,
      (f.supported_models.contains exDeviceOld.model &&
        (f.channel == "stable" || f.channel == majorOf exDeviceOld.firmware_version))
          = true ∧
      f.version = "1.2.0" ∧ f.hash = "h-new" ∧
      "/api/firmware/1.2.0/download/" = "/api/firmware/" ++ f.version ++ "/download/" ∧
      f.release_notes = "notes" ∧
      "1.2.0" ≠ exDeviceOld.firmware_version ∧
      ∀ g ∈ exStateUpgrade.firmwares, matchesDevice exDeviceOld g = true →
        g.created_at ≤ f.created_at :=
  ⟨rfl,
   (ota_check_selects_newest_matching exStateUpgrade (some 2) (some "key-2") none
     exDeviceOld "1.2.0" "h-new" "/api/firmware/1.2.0/download/" "notes" rfl rfl).1⟩

/-- Fixture: an already-resolved event. -/
def exEventResolved : SystemEvent :=
  { device_id := 1, event_type := "ota_failed", severity := "high", description := "d",
    status := "resolved", resolved_at := some 10, resolved_by := some 7,
    ota_version := none, error_note := "" }

/-- Fixture: an active event. -/
def exEventActive : SystemEvent :=
  { device_id := 1, event_type := "ota_failed", severity := "high", description := "d",
    status := "active", resolved_at := none, resolved_by := none,
    ota_version := none, error_note := "" }

/-- C6 counterexample: acknowledging an already-resolved event moves its
status backwards from resolved to acknowledged, and resolving an event
while the client omits the resolved_at value yields status resolved with
resolved_at unset — both forward-only progression and the
"resolved implies resolved-at set" implication fail on the code. -/
theorem event_status_regression_counterexample :
    exEventResolved.status = "resolved" ∧
    (acknowledge exEventResolved).status = "acknowledged" ∧
    (resolve 7 none exEventActive).status = "resolved" ∧
    (resolve 7 none exEventActive).resolved_at = none :=
  ⟨rfl, rfl, rfl, rfl⟩

/-- C6 (amended): acknowledge sets the event's status to acknowledged and
resolve sets it to resolved unconditionally, whatever the prior status
(transitions can go backwards); resolve sets resolved_by to the acting user
and resolved_at to the client-supplied value, which may be absent. -/
theorem event_actions_set_fields (e : SystemEvent) (u : Nat) (t : Option Nat) :
    (acknowledge e).status = "acknowledged" ∧
    (resolve u t e).status = "resolved" ∧
    (resolve u t e).resolved_by = some u ∧
    (resolve u t e).resolved_at = t :=
  ⟨rfl, rfl, rfl, rfl⟩

/-- C8 counterexample: the store knows device 1 with api_key "key-1" and no
device 99.  A config fetch for the known device with a mismatched
credential gets the 404 not-found outcome (the claim requires Unauthorized
for credential mismatch), while a batch ingest naming the unknown device 99
gets the 401 auth-error outcome (the claim requires NotFound for an unknown
identifier) — the two failure modes are not distinguished. -/
theorem device_auth_modes_counterexample :
    (exDevice ∈ exStateFresh.devices ∧ exDevice.id = 1 ∧ exDevice.api_key ≠ "wrong") ∧
    get_config exStateFresh (some 1) (some "wrong") none = .err "Device not found" 404 ∧
    (∀ d ∈ exStateFresh.devices, d.id ≠ 99) ∧
    (telemetry_batch (fun _ => "") (fun _ => ParseOutcome.badFormat) 0 exStateFresh
        ⟨some 99, some "key-1", none, some "u", none, .jsonList [], ""⟩).1
      = .err "Device not found or invalid API key" 401 := by
  refine ⟨⟨by decide, rfl, by decide⟩, rfl, by decide, rfl⟩

/-- C8 (amended): the device lookup is a single get on (id, api_key), so a
mismatched credential and an unknown identifier produce the same outcome
per endpoint: telemetry_batch answers 401 for any failed lookup (given the
required headers are present), while config fetch, OTA check and OTA
report answer 404 for any failed lookup — the two failure modes are not
distinguished. -/
theorem device_auth_failure_uniform
    (st : ServerState) (did : Option Nat) (ak lg : Option String)
    (hfail : findDevice st.devices did (pyOr ak lg) = none) :
    (∀ (hashFn : String → String) (parseDT : String → ParseOutcome) (now : Nat)
        (idem sha : Option String) (body : BatchBody) (raw : String),
        did.isSome = true → truthy idem = true →
        (telemetry_batch hashFn parseDT now st ⟨did, ak, lg, idem, sha, body, raw⟩).1
          = .err "Device not found or invalid API key" 401) ∧
    get_config st did ak lg = .err "Device not found" 404 ∧
    ota_check st did ak lg = .err "Device not found" 404 ∧
    (∀ (su ver : Option String) (en : String),
        (ota_report st ⟨did, ak, lg, su, ver, en⟩).1 = .err "Device not found" 404) := by
  refine ⟨?_, ?_, ?_, ?_⟩
  · intro hashFn parseDT now idem sha body raw hd hidem
    rw [Option.isSome_iff_ne_none] at hd
    unfold telemetry_batch
    simp [hfail, hd, hidem]
  · unfold get_config
    rw [hfail]
  · unfold ota_check
    rw [hfail]
  · intro su ver en
    unfold ota_report
    rw [hfail]

theorem device_auth_failure_uniform_witness :
    (findDevice exStateFresh.devices (some 99) (pyOr (some "key-1") none) = none) ∧
    (telemetry_batch (fun _ => "") (fun _ => ParseOutcome.badFormat) 0 exStateFresh
        ⟨some 99, some "key-1", none, some "u", none, .jsonList [], ""⟩).1
      = .err "Device not found or invalid API key" 401 ∧
    get_config exStateFresh (some 99) (some "key-1") none = .err "Device not found" 404 ∧
    (ota_report exStateFresh ⟨some 99, some "key-1", none, some "completed", some "2.0.0", ""⟩).1
      = .err "Device not found" 404 :=
  ⟨rfl,
   (device_auth_failure_uniform exStateFresh (some 99) (some "key-1") none rfl).1
     (fun _ => "") (fun _ => ParseOutcome.badFormat) 0 (some "u") none (.jsonList []) "" rfl rfl,
   (device_auth_failure_uniform exStateFresh (some 99) (some "key-1") none rfl).2.1,
   (device_auth_failure_uniform exStateFresh (some 99) (some "key-1") none rfl).2.2.2
     (some "completed") (some "2.0.0") ""⟩

theorem severity_cond_bridge (o : Option String) :
    (if o == some "failed" || o == some "rollback" then ("high" : String) else "low")
      = (if o = some "failed" ∨ o = some "rollback" then "high" else "low") := by
  by_cases hp : o = some "failed" ∨ o = some "rollback"
  · have hb : (o == some "failed" || o == some "rollback") = true := by
      rcases hp with hp1 | hp1 <;> simp [hp1]
    rw [if_pos hp]
    simp [hb]
  · have h1 : o ≠ some "failed" := fun hq => hp (Or.inl hq)
    have h2 : o ≠ some "rollback" := fun hq => hp (Or.inr hq)
    have hb : (o == some "failed" || o == some "rollback") = false := by
      simp [beq_eq_false_iff_ne.mpr h1, beq_eq_false_iff_ne.mpr h2]
    rw [if_neg hp]
    simp [hb]

/-- C9: an OTA report always acknowledges with 'reported'; it appends
exactly one SystemEvent for the reporting device whose severity is "high"
exactly when the reported status is failed or rollback and "low" otherwise;
and the device table is rewritten with the reported firmware version if and
only if the reported status is completed and a (truthy) version is
supplied, and left unchanged in every other case. -/
theorem ota_report_effects
    (st : ServerState) (req : OtaReportRequest) (device : Device)
    (hauth : findDevice st.devices req.device_id (pyOr req.auth_key req.legacy_api_key)
      = some device) :
    (ota_report st req).1 = .ok "reported" ∧
    (∃ ev : SystemEvent,
        (ota_report st req).2.events = st.events ++ [ev] ∧
        ev.severity
          = (if req.status_update = some "failed" ∨ req.status_update = some "rollback"
              then "high" else "low") ∧
        ev.event_type = "ota_" ++ strOfOpt req.status_update ∧
        ev.device_id = device.id) ∧
    ((ota_report st req).2.devices
      = if req.status_update = some "completed" ∧ truthy req.version = true then
          st.devices.map (fun d =>
            if d.id == device.id then { d with firmware_version := req.version.getD "" }
            else d)
        else st.devices) := by
  by_cases hc : req.status_update = some "completed" ∧ truthy req.version = true
  · obtain ⟨hc1, hc2⟩ := hc
    have hb : (req.status_update == some "completed" && truthy req.version) = true := by
      simp [hc1, hc2]
    unfold ota_report
    rw [hauth]
    simp only [hb, if_true, Bool.if_true_left]
    refine ⟨?_, ⟨⟨device.id, "ota_" ++ strOfOpt req.status_update,
        (if req.status_update == some "failed" || req.status_update == some "rollback"
          then "high" else "low"),
        "OTA update " ++ strOfOpt req.status_update ++ ": " ++ strOfOpt req.version,
        "active", none, none, req.version, req.error_note⟩, ?_, ?_, rfl, rfl⟩, ?_⟩
    · simp
    · simp
    · rw [severity_cond_bridge]
    · rw [if_pos ⟨hc1, hc2⟩]
  · have hb : (req.status_update == some "completed" && truthy req.version) = false := by
      rcases Decidable.not_and_iff_or_not.mp hc with hq | hq
      · simp [Bool.and_eq_false_iff, beq_eq_false_iff_ne.mpr hq]
      · simp [Bool.and_eq_false_iff]
        intro _
        simpa using hq
    unfold ota_report
    rw [hauth]
    simp only [hb]
    refine ⟨?_, ⟨⟨device.id, "ota_" ++ strOfOpt req.status_update,
        (if req.status_update == some "failed" || req.status_update == some "rollback"
          then "high" else "low"),
        "OTA update " ++ strOfOpt req.status_update ++ ": " ++ strOfOpt req.version,
        "active", none, none, req.version, req.error_note⟩, ?_, ?_, rfl, rfl⟩, ?_⟩
    · simp
    · simp
    · rw [severity_cond_bridge]
    · rw [if_neg hc]
      simp

/-- Fixture: a successful OTA completion report for device 2. -/
def exReportCompleted : OtaReportRequest :=
  { device_id := some 2, auth_key := some "key-2", legacy_api_key := none,
    status_update := some "completed", version := some "1.2.0", error_note := "" }

theorem ota_report_effects_witness :
    (findDevice exStateUpgrade.devices exReportCompleted.device_id
        (pyOr exReportCompleted.auth_key exReportCompleted.legacy_api_key)
      = some exDeviceOld) ∧
    (ota_report exStateUpgrade exReportCompleted).1 = .ok "reported" ∧
    (∃ ev : SystemEvent,
        (ota_report exStateUpgrade exReportCompleted).2.events
          = exStateUpgrade.events ++ [ev] ∧
        ev.severity
          = (if exReportCompleted.status_update = some "failed" ∨
                exReportCompleted.status_update = some "rollback"
              then "high" else "low") ∧
        ev.event_type = "ota_" ++ strOfOpt exReportCompleted.status_update ∧
        ev.device_id = exDeviceOld.id) ∧
    ((ota_report exStateUpgrade exReportCompleted).2.devices
      = if exReportCompleted.status_update = some "completed" ∧
            truthy exReportCompleted.version = true then
          exStateUpgrade.devices.map (fun d =>
            if d.id == exDeviceOld.id then
              { d with firmware_version := exReportCompleted.version.getD "" }
            else d)
        else exStateUpgrade.devices) :=
  ⟨rfl,
   (ota_report_effects exStateUpgrade exReportCompleted exDeviceOld rfl).1,
   (ota_report_effects exStateUpgrade exReportCompleted exDeviceOld rfl).2.1,
   (ota_report_effects exStateUpgrade exReportCompleted exDeviceOld rfl).2.2⟩

/-- Invariant carried by every queue entry the dispatcher can produce from a
fresh entry: the retry count is bounded by max_retries, and strictly below
it while another attempt is still possible. -/
def NQinv (e : NQEntry) : Prop :=
  e.retry_count ≤ e.max_retries ∧
  (e.status = "pending" → e.retry_count < e.max_retries) ∧
  (e.status = "retry" → e.retry_count < e.max_retries)

/-- On failed-only-by-exhaustion runs: failed status certifies a spent
retry budget. -/
def NQfailedInv (e : NQEntry) : Prop :=
  e.status = "failed" → e.retry_count = e.max_retries

theorem eligible_rc_lt (t : Nat) (e : NQEntry) (h : NQinv e)
    (he : eligibleAt t e = true) : e.retry_count < e.max_retries := by
  unfold eligibleAt at he
  rw [Bool.or_eq_true] at he
  rcases he with hp | hp
  · exact h.2.1 (by simpa using hp)
  · rw [Bool.and_eq_true] at hp
    exact h.2.2 (by simpa using hp.1)

theorem dispatchStep_inv (t j : Nat) (o : DeliveryOutcome) (e : NQEntry)
    (h : NQinv e) : NQinv (dispatchStep t j o e) := by
  obtain ⟨h1, h2, h3⟩ := h
  unfold dispatchStep
  by_cases he : eligibleAt t e = true
  · have hrc : e.retry_count < e.max_retries := eligible_rc_lt t e ⟨h1, h2, h3⟩ he
    rw [if_pos he]
    cases o with
    | success =>
      refine ⟨h1, ?_, ?_⟩ <;> intro hq <;> simp at hq
    | permanentFailure =>
      refine ⟨h1, ?_, ?_⟩ <;> intro hq <;> simp at hq
    | transientFailure =>
      by_cases hlt : e.retry_count + 1 < e.max_retries
      · rw [if_pos hlt]
        refine ⟨Nat.le_of_lt hlt, ?_, fun _ => hlt⟩
        intro hq
        simp at hq
      · rw [if_neg hlt]
        refine ⟨Nat.succ_le_of_lt hrc, ?_, ?_⟩ <;> intro hq <;> simp at hq
  · rw [if_neg he]
    exact ⟨h1, h2, h3⟩

theorem runSteps_inv (steps : List (Nat × Nat × DeliveryOutcome)) :
    ∀ e : NQEntry, NQinv e → NQinv (runSteps e steps) := by
  induction steps with
  | nil => intro e h; exact h
  | cons s rest ih =>
    intro e h
    exact ih _ (dispatchStep_inv s.1 s.2.1 s.2.2 e h)

theorem dispatchStep_transient_failedInv (t j : Nat) (e : NQEntry)
    (h : NQinv e) (hf : NQfailedInv e) :
    NQfailedInv (dispatchStep t j .transientFailure e) := by
  unfold dispatchStep
  by_cases he : eligibleAt t e = true
  · have hrc : e.retry_count < e.max_retries := eligible_rc_lt t e h he
    rw [if_pos he]
    by_cases hlt : e.retry_count + 1 < e.max_retries
    · rw [if_pos hlt]
      intro hq
      simp at hq
    · rw [if_neg hlt]
      intro _
      exact Nat.le_antisymm (Nat.succ_le_of_lt hrc) (Nat.le_of_not_lt hlt)
  · rw [if_neg he]
    exact hf

theorem runSteps_transient_failedInv (steps : List (Nat × Nat × DeliveryOutcome)) :
    ∀ e : NQEntry, NQinv e → NQfailedInv e →
      (∀ s ∈ steps, s.2.2 = DeliveryOutcome.transientFailure) →
      NQfailedInv (runSteps e steps) := by
  induction steps with
  | nil => intro e _ hf _; exact hf
  | cons s rest ih =>
    intro e h hf hall
    have hs := hall s (List.mem_cons_self s rest)
    refine ih _ (dispatchStep_inv s.1 s.2.1 s.2.2 e h) ?_
      (fun x hx => hall x (List.mem_cons_of_mem s hx))
    rw [hs]
    exact dispatchStep_transient_failedInv s.1 s.2.1 e h hf

theorem dispatchStep_failed_terminal (t j : Nat) (o : DeliveryOutcome) (e : NQEntry)
    (h : e.status = "failed") : dispatchStep t j o e = e := by
  have he : eligibleAt t e = false := by
    unfold eligibleAt
    rw [h]
    simp
  unfold dispatchStep
  simp [he]

theorem dispatchStep_retry_future (t j : Nat) (o : DeliveryOutcome) (e : NQEntry)
    (he : eligibleAt t e = true)
    (hr : (dispatchStep t j o e).status = "retry") :
    ∃ r, (dispatchStep t j o e).next_retry_at = some r ∧ t < r := by
  unfold dispatchStep at hr ⊢
  rw [if_pos he] at hr ⊢
  cases o with
  | success => simp at hr
  | permanentFailure => simp at hr
  | transientFailure =>
    by_cases hlt : e.retry_count + 1 < e.max_retries
    · rw [if_pos hlt] at hr ⊢
      refine ⟨t + backoffDelay (e.retry_count + 1) + j, rfl, ?_⟩
      have h2 : 0 < (2 : Nat) ^ (e.retry_count + 1) := pow_pos (by decide) _
      have hpos : 0 < backoffDelay (e.retry_count + 1) := by
        unfold backoffDelay backoffBase backoffCap
        exact Nat.lt_min.mpr ⟨Nat.mul_pos (by decide) h2, by decide⟩
      omega
    · rw [if_neg hlt] at hr
      simp at hr

theorem initialEntry_inv : NQinv initialEntry := by
  unfold NQinv initialEntry
  exact ⟨by decide, fun _ => by decide, fun hq => absurd hq (by decide)⟩

theorem initialEntry_failedInv : NQfailedInv initialEntry :=
  fun hq => absurd hq (by decide)

/-- C7: over the dispatcher policy of the design document applied to a
freshly created NotificationQueue entry (pending, retry_count 0,
max_retries 3 per the model defaults): the retry count never exceeds
max_retries under any sequence of attempts; an entry in failed status is
terminal, untouched by every further attempt; whenever an attempt leaves an
entry in retry status its next-retry-at is strictly in the future of that
attempt; a run whose every attempt fails transiently can only reach failed
with the retry count equal to max_retries; and the canonical all-transient
schedule does terminate at failed with retry_count = max_retries after
exhausting the budget. -/
theorem notification_retry_bounds :
    (∀ steps : List (Nat × Nat × DeliveryOutcome),
        (runSteps initialEntry steps).retry_count
          ≤ (runSteps initialEntry steps).max_retries) ∧
    (∀ (t j : Nat) (o : DeliveryOutcome) (e : NQEntry),
        e.status = "failed" → dispatchStep t j o e = e) ∧
    (∀ (t j : Nat) (o : DeliveryOutcome) (e : NQEntry),
        eligibleAt t e = true → (dispatchStep t j o e).status = "retry" →
        ∃ r, (dispatchStep t j o e).next_retry_at = some r ∧ t < r) ∧
    (∀ steps : List (Nat × Nat × DeliveryOutcome),
        (∀ s ∈ steps, s.2.2 = DeliveryOutcome.transientFailure) →
        (runSteps initialEntry steps).status = "failed" →
        (runSteps initialEntry steps).retry_count
          = (runSteps initialEntry steps).max_retries) ∧
    ((drainTransient initialEntry 3).status = "failed" ∧
      (drainTransient initialEntry 3).retry_count
        = (drainTransient initialEntry 3).max_retries) :=
  ⟨fun steps => (runSteps_inv steps initialEntry initialEntry_inv).1,
   dispatchStep_failed_terminal,
   dispatchStep_retry_future,
   fun steps hall =>
     runSteps_transient_failedInv steps initialEntry initialEntry_inv
       initialEntry_failedInv hall,
   by decide, by decide⟩

theorem notification_retry_bounds_witness :
    (eligibleAt 5 initialEntry = true) ∧
    ((dispatchStep 5 0 .transientFailure initialEntry).status = "retry") ∧
    (∃ r, (dispatchStep 5 0 .transientFailure initialEntry).next_retry_at = some r ∧
      5 < r) ∧
    ((runSteps initialEntry [(5, 0, .transientFailure)]).retry_count
      ≤ (runSteps initialEntry [(5, 0, .transientFailure)]).max_retries) ∧
    (∀ s ∈ ([] : List (Nat × Nat × DeliveryOutcome)),
        s.2.2 = DeliveryOutcome.transientFailure) ∧
    ((runSteps initialEntry []).status = "failed" →
      (runSteps initialEntry []).retry_count = (runSteps initialEntry []).max_retries) :=
  ⟨by decide, by decide,
   notification_retry_bounds.2.2.1 5 0 .transientFailure initialEntry (by decide)
     (by decide),
   notification_retry_bounds.1 [(5, 0, .transientFailure)],
   by decide,
   notification_retry_bounds.2.2.2.1 [] (by decide)⟩

end EsoCore
